import Mathlib

/-!
Verification of the CodeXR demo (src/app.py): a keyword-matched canned-response
resolver behind a small web UI.  The Python code is shallowly embedded below:
the pydantic models become Lean structures, the returned dict literals become
record literals (with `toDict` giving their JSON/dict shape), `str.lower()` is
modelled by `strToLower` (ASCII case folding on the character list), and the
Python substring test `needle in hay` by `strContains`.  Literal braces and
apostrophes inside the transcribed code-snippet strings are written with
hexadecimal escapes so the strings stay byte-for-byte faithful to the source.
-/

namespace CodeXR

/-- Model of pydantic `Task` (src/app.py lines 9-11): a task name and an
optional details string. -/
structure Task where
  task_name : String
  details : Option String
deriving DecidableEq

/-- Model of pydantic `CodeSnippet` (src/app.py lines 13-15): a language tag
and a code body. -/
structure CodeSnippet where
  language : String
  code : String
deriving DecidableEq

/-- Model of pydantic `CodeXRResponse` (src/app.py lines 17-24): the full
structured response record. -/
structure CodeXRResponse where
  query : String
  category : String
  difficulty : String
  subtasks : List Task
  code_snippet : CodeSnippet
  best_practices : List String
  documentation_link : String
deriving DecidableEq

/-- Model of Python `str.lower()` (ASCII case folding, which covers every
character the rule table and the demo queries use): lower-case each character
of the string. -/
def strToLower (s : String) : String := String.mk (s.data.map Char.toLower)

/-- Model of the Python substring test `needle in hay`: some tail of `hay`
has `needle` as a prefix. -/
def strContains (hay needle : String) : Bool :=
  hay.data.tails.any (fun t => needle.data.isPrefixOf t)

/-- The dict literal returned for Scenario 1 (Unity teleport locomotion),
src/app.py lines 41-86, as a record. -/
def unityTeleportResponse (query : String) : CodeXRResponse :=
  { query := query
    category := "Unity"
    difficulty := "Intermediate"
    subtasks := [
      ⟨"Install the Unity XR Interaction Toolkit", some "Use the Package Manager to add the XR Interaction Toolkit."⟩,
      ⟨"Create a Teleportation Area", some "Add a \x27Teleportation Area\x27 component to the floor/ground plane."⟩,
      ⟨"Set up the XR Rig", some "Ensure your XR Rig has a \x27Teleportation Provider\x27 component."⟩,
      ⟨"Configure Controller Actions", some "Map a controller button to the \x27Teleport\x27 action in the Input Action Asset."⟩]
    code_snippet :=
      ⟨"csharp",
        "// Attach this script to your XR Rig to enable teleportation requests.\n" ++
        "using UnityEngine;\n" ++
        "using UnityEngine.InputSystem;\n" ++
        "using UnityEngine.XR.Interaction.Toolkit;\n\n" ++
        "public class TeleportController : MonoBehaviour\n" ++
        "\x7b\n" ++
        "    public InputActionAsset actionAsset;\n" ++
        "    public TeleportationProvider provider;\n\n" ++
        "    private InputAction _thumbstick;\n" ++
        "    private TeleportRequest _request = new TeleportRequest();\n\n" ++
        "    void Start()\n" ++
        "    \x7b\n" ++
        "        // Ensure the provider is assigned in the Inspector\n" ++
        "        if (provider == null) provider = GetComponent<TeleportationProvider>();\n\n" ++
        "        var activate = actionAsset.FindActionMap(\"XRI RightHand Locomotion\").FindAction(\"Teleport Mode Activate\");\n" ++
        "        activate.Enable();\n" ++
        "        activate.performed += OnTeleportActivate;\n\n" ++
        "        var cancel = actionAsset.FindActionMap(\"XRI RightHand Locomotion\").FindAction(\"Teleport Mode Cancel\");\n" ++
        "        cancel.Enable();\n" ++
        "        cancel.performed += OnTeleportCancel;\n" ++
        "    \x7d\n\n" ++
        "    private void OnTeleportActivate(InputAction.CallbackContext context) \x7b /* Logic to show ray */ \x7d\n" ++
        "    private void OnTeleportCancel(InputAction.CallbackContext context) \x7b /* Logic to hide ray and teleport */ \x7d\n" ++
        "\x7d"⟩
    best_practices := [
      "Use Teleportation Anchors for specific teleport points, not just large areas.",
      "Ensure your floor/ground objects are on a layer that the XR Ray Interactor can hit.",
      "A \x27NullReferenceException\x27 often means the TeleportationProvider is not assigned in the Inspector."]
    documentation_link := "https://docs.unity3d.com/Packages/com.unity.xr.interaction.toolkit@2.5/manual/locomotion.html" }

/-- The dict literal returned for Scenario 2 (Unreal multiplayer VR),
src/app.py lines 90-130, as a record. -/
def unrealMultiplayerResponse (query : String) : CodeXRResponse :=
  { query := query
    category := "Unreal"
    difficulty := "Advanced"
    subtasks := [
      ⟨"Enable a Networking Plugin", some "Activate \x27Online Subsystem\x27 and a specific platform plugin (e.g., \x27OnlineSubsystemSteam\x27)."⟩,
      ⟨"Replicate VR Pawn and Actors", some "Set the \x27Replicates\x27 flag to true on your VRPawn and any networked objects."⟩,
      ⟨"Replicate Movement", some "Use RPCs (Remote Procedure Calls) like \x27Server_Move\x27 and \x27Multicast_Move\x27 to sync player position."⟩,
      ⟨"Set up a Game Session", some "Use the Online Session Interface to create, find, and join multiplayer sessions."⟩]
    code_snippet :=
      ⟨"cpp",
        "// Example of a replicated function in your character\x27s header file\n" ++
        "UCLASS()\n" ++
        "class YOURGAME_API AVRCharacter : public ACharacter\n" ++
        "\x7b\n" ++
        "    GENERATED_BODY()\n\n" ++
        "public:\n" ++
        "    // This function is called on the server\n" ++
        "    UFUNCTION(Server, Reliable, WithValidation)\n" ++
        "    void Server_SomeAction();\n\n" ++
        "    // This function is called on all clients\n" ++
        "    UFUNCTION(NetMulticast, Reliable)\n" ++
        "    void Multicast_SomeEffect();\n\n" ++
        "    // Must override this for replicated properties\n" ++
        "    virtual void GetLifetimeReplicatedProps(TArray<FLifetimeProperty>& OutLifetimeProps) const override;\n\n" ++
        "protected:\n" ++
        "    // Replicated property\n" ++
        "    UPROPERTY(Replicated)\n" ++
        "    float Health;\n" ++
        "\x7d;"⟩
    best_practices := [
      "Only replicate what\x27s necessary to save bandwidth.",
      "Avoid running complex logic in \x27tick\x27 functions for networked actors.",
      "Use \x27Replication Conditions\x27 (e.g., COND_OwnerOnly) to control when and to whom properties are sent."]
    documentation_link := "https://docs.unrealengine.com/5.3/en-US/multiplayer-and-networking-in-unreal-engine/" }

/-- The dict literal returned for Scenario 3 (shader for AR occlusion),
src/app.py lines 134-172, as a record. -/
def shaderOcclusionResponse (query : String) : CodeXRResponse :=
  { query := query
    category := "Shader"
    difficulty := "Intermediate"
    subtasks := [
      ⟨"Understand Occlusion Shaders", some "An occlusion shader makes objects invisible but still hides objects behind them. It doesn\x27t write color, only depth."⟩,
      ⟨"Create a New Shader Graph or File", some "In Unity or Unreal, create a new shader asset."⟩,
      ⟨"Configure the Shader Properties", some "Set the \x27Render Queue\x27 to be earlier than your normal geometry and disable color/alpha writes."⟩,
      ⟨"Apply the Material", some "Create a material from the shader and apply it to the geometry that should occlude (e.g., a model of a table)."⟩]
    code_snippet :=
      ⟨"hlsl",
        "// A minimal Unity URP shader for occlusion.\n" ++
        "Shader \"Unlit/OcclusionShader\"\n" ++
        "\x7b\n" ++
        "    Properties\n" ++
        "    \x7b\n" ++
        "    \x7d\n" ++
        "    SubShader\n" ++
        "    \x7b\n" ++
        "        Tags \x7b \"RenderType\"=\"Opaque\" \"Queue\"=\"Geometry-10\" \x7d\n" ++
        "        LOD 100\n" ++
        "        Pass\n" ++
        "        \x7b\n" ++
        "            ColorMask 0 // Don\x27t write to any color channels\n" ++
        "            ZWrite On   // Write to the depth buffer\n" ++
        "        \x7d\n" ++
        "    \x7d\n" ++
        "\x7d"⟩
    best_practices := [
      "The key to occlusion is `ColorMask 0`. This prevents the occluder from being visible.",
      "Make sure the occluder geometry matches the real-world object as closely as possible for convincing AR.",
      "This technique works best when the AR platform provides a mesh of the real-world environment."]
    documentation_link := "https://docs.unity3d.com/Manual/SL-SubShaderTags.html" }

/-- The dict literal returned when no demo scenario is matched,
src/app.py lines 175-183, as a record. -/
def defaultResponse (query : String) : CodeXRResponse :=
  { query := query
    category := "General"
    difficulty := "N/A"
    subtasks := [⟨"Query not recognized", some "This demo only supports the three specific scenarios from the project document. Please try one of them."⟩]
    code_snippet := ⟨"text", "No code to display."⟩
    best_practices := ["Try asking: \x27How do I add teleport locomotion in Unity VR?\x27"]
    documentation_link := "" }

/-- Model of `get_simulated_ai_response` (src/app.py lines 31-183): lower-case
the query, test the three keyword pairs in order, and return the first
matching scenario record, or the default record if none matches. -/
def get_simulated_ai_response (query : String) : CodeXRResponse :=
  let query_lower := strToLower query
  if strContains query_lower "teleport" && strContains query_lower "unity" then
    unityTeleportResponse query
  else if strContains query_lower "multiplayer" && strContains query_lower "unreal" then
    unrealMultiplayerResponse query
  else if strContains query_lower "shader" && strContains query_lower "occlusion" then
    shaderOcclusionResponse query
  else
    defaultResponse query

/-- JSON-like values, the shape of the Python dicts `get_simulated_ai_response`
returns and that `CodeXRResponse(**response_data)` consumes. -/
inductive JVal where
  | str : String → JVal
  | null : JVal
  | arr : List JVal → JVal
  | obj : List (String × JVal) → JVal

/-- Look up a key in a dict (association list). -/
def lookupField (fields : List (String × JVal)) (key : String) : Option JVal :=
  (fields.find? (fun p => p.1 == key)).map (fun p => p.2)

/-- The dict shape of a `Task` record: the dict literals in src/app.py always
carry both keys, with `details` a string (or `null` for a missing optional). -/
def taskToDict (t : Task) : JVal :=
  .obj [("task_name", .str t.task_name),
        ("details", match t.details with | some s => .str s | none => .null)]

/-- The dict shape of the record `get_simulated_ai_response` returns: the keys
of the Python dict literals, in source order. -/
def toDict (r : CodeXRResponse) : JVal :=
  .obj [("query", .str r.query),
        ("category", .str r.category),
        ("difficulty", .str r.difficulty),
        ("subtasks", .arr (r.subtasks.map taskToDict)),
        ("code_snippet", .obj [("language", .str r.code_snippet.language),
                               ("code", .str r.code_snippet.code)]),
        ("best_practices", .arr (r.best_practices.map JVal.str)),
        ("documentation_link", .str r.documentation_link)]

/-- Pydantic validation of one `Task`: `task_name` is a required string,
`details` an optional (possibly null, possibly absent) string. -/
def parseTask : JVal → Except String Task
  | .obj fs =>
    match lookupField fs "task_name" with
    | some (.str name) =>
      match lookupField fs "details" with
      | some (.str s) => .ok ⟨name, some s⟩
      | some .null => .ok ⟨name, none⟩
      | none => .ok ⟨name, none⟩
      | some _ => .error "details: str or null expected"
    | some _ => .error "task_name: str expected"
    | none => .error "task_name: field required"
  | _ => .error "task: object expected"

/-- Pydantic validation of `List[Task]`. -/
def parseTaskList : List JVal → Except String (List Task)
  | [] => .ok []
  | v :: vs =>
    match parseTask v with
    | .ok t =>
      match parseTaskList vs with
      | .ok ts => .ok (t :: ts)
      | .error e => .error e
    | .error e => .error e

/-- Pydantic validation of `List[str]`. -/
def parseStrList : List JVal → Except String (List String)
  | [] => .ok []
  | .str s :: vs =>
    match parseStrList vs with
    | .ok ss => .ok (s :: ss)
    | .error e => .error e
  | _ :: _ => .error "str expected"

/-- Pydantic validation of `CodeSnippet`: required string fields `language`
and `code`. -/
def parseSnippet : JVal → Except String CodeSnippet
  | .obj fs =>
    match lookupField fs "language" with
    | some (.str lang) =>
      match lookupField fs "code" with
      | some (.str code) => .ok ⟨lang, code⟩
      | some _ => .error "code: str expected"
      | none => .error "code: field required"
    | some _ => .error "language: str expected"
    | none => .error "language: field required"
  | _ => .error "code_snippet: object expected"

/-- Model of `CodeXRResponse(**response_data)` (src/app.py line 207): every
declared field must be present with the declared type, nested models
included; on failure pydantic raises `ValidationError`, modelled as `.error`. -/
def validateCodeXR : JVal → Except String CodeXRResponse
  | .obj fs =>
    match lookupField fs "query" with
    | some (.str q) =>
      match lookupField fs "category" with
      | some (.str cat) =>
        match lookupField fs "difficulty" with
        | some (.str diff) =>
          match lookupField fs "subtasks" with
          | some (.arr sub) =>
            match parseTaskList sub with
            | .ok ts =>
              match lookupField fs "code_snippet" with
              | some snip =>
                match parseSnippet snip with
                | .ok cs =>
                  match lookupField fs "best_practices" with
                  | some (.arr bp) =>
                    match parseStrList bp with
                    | .ok bps =>
                      match lookupField fs "documentation_link" with
                      | some (.str link) => .ok ⟨q, cat, diff, ts, cs, bps, link⟩
                      | some _ => .error "documentation_link: str expected"
                      | none => .error "documentation_link: field required"
                    | .error e => .error e
                  | some _ => .error "best_practices: list expected"
                  | none => .error "best_practices: field required"
                | .error e => .error e
              | none => .error "code_snippet: field required"
            | .error e => .error e
          | some _ => .error "subtasks: list expected"
          | none => .error "subtasks: field required"
        | some _ => .error "difficulty: str expected"
        | none => .error "difficulty: field required"
      | some _ => .error "category: str expected"
      | none => .error "category: field required"
    | some _ => .error "query: str expected"
    | none => .error "query: field required"
  | _ => .error "response: object expected"

/-- The three keyword sets of src/app.py lines 40, 89 and 133, in
registration order. -/
def ruleKeywords : List (List String) :=
  [["teleport", "unity"], ["multiplayer", "unreal"], ["shader", "occlusion"]]

/-- Whether the query satisfies rule `i`: every keyword of the rule is a
case-insensitive substring of the query. -/
def satisfiesRuleIdx (i : Nat) (query : String) : Bool :=
  (ruleKeywords.getD i []).all (fun k => strContains (strToLower query) k)

/-- Which rule `get_simulated_ai_response` selects for a query: the same
three tests, in the same order, with `none` for the fallback. -/
def matchedRule (query : String) : Option Nat :=
  let query_lower := strToLower query
  if strContains query_lower "teleport" && strContains query_lower "unity" then some 0
  else if strContains query_lower "multiplayer" && strContains query_lower "unreal" then some 1
  else if strContains query_lower "shader" && strContains query_lower "occlusion" then some 2
  else none

/-- The scenario record registered for rule `i` (out-of-range indices fall
back to the default record). -/
def ruleResponse : Nat → String → CodeXRResponse
  | 0, q => unityTeleportResponse q
  | 1, q => unrealMultiplayerResponse q
  | 2, q => shaderOcclusionResponse q
  | _, q => defaultResponse q

/-- The record produced for a given selected rule. -/
def applyRule : Option Nat → String → CodeXRResponse
  | some i, q => ruleResponse i q
  | none, q => defaultResponse q

/-- Blank out the `query` field, leaving the template content. -/
def eraseQuery (r : CodeXRResponse) : CodeXRResponse :=
  { r with query := "" }

/-- Outcome of one press of the submit button. -/
inductive UIOutcome where
  | warned : UIOutcome
  | rendered : CodeXRResponse → UIOutcome
  | schemaError : String → UIOutcome
deriving DecidableEq

/-- Model of the submit handler (src/app.py lines 199-239): Python
`if query:` is true exactly for non-empty strings; a non-empty query is
resolved and validated (rendered on success, error panel on
`ValidationError`), an empty query only produces the warning. -/
def handleSubmit (query : String) : UIOutcome :=
  if query ≠ "" then
    match validateCodeXR (toDict (get_simulated_ai_response query)) with
    | .ok r => .rendered r
    | .error e => .schemaError e
  else
    .warned

/-- Validating the dict shape of a `Task` recovers the task. -/
theorem parseTask_taskToDict (t : Task) : parseTask (taskToDict t) = .ok t := by
  obtain ⟨n, d⟩ := t
  cases d <;> rfl

/-- Validating a list of `Task` dict shapes recovers the list. -/
theorem parseTaskList_map (ts : List Task) :
    parseTaskList (ts.map taskToDict) = .ok ts := by
  induction ts with
  | nil => rfl
  | cons t ts ih => simp [parseTaskList, parseTask_taskToDict, ih]

/-- Validating a list of string values recovers the strings. -/
theorem parseStrList_map (ss : List String) :
    parseStrList (ss.map JVal.str) = .ok ss := by
  induction ss with
  | nil => rfl
  | cons s ss ih => simp [parseStrList, ih]

/-- Pydantic validation accepts the dict shape of every response record. -/
theorem validate_toDict (r : CodeXRResponse) :
    validateCodeXR (toDict r) = .ok r := by
  obtain ⟨q, cat, diff, ts, ⟨lang, code⟩, bps, link⟩ := r
  simp [validateCodeXR, toDict, lookupField, parseSnippet,
    parseTaskList_map, parseStrList_map]

/-- The resolver returns the record of the rule `matchedRule` selects. -/
theorem get_eq_applyRule (q : String) :
    get_simulated_ai_response q = applyRule (matchedRule q) q := by
  simp only [get_simulated_ai_response, matchedRule]
  split_ifs <;> rfl

/-- `matchedRule` tests `satisfiesRuleIdx 0`, `1`, `2` in order. -/
theorem matchedRule_eq (q : String) :
    matchedRule q =
      if satisfiesRuleIdx 0 q then some 0
      else if satisfiesRuleIdx 1 q then some 1
      else if satisfiesRuleIdx 2 q then some 2
      else none := by
  simp [matchedRule, satisfiesRuleIdx, ruleKeywords]

/-- C1: for every non-empty query string, the record built by
`get_simulated_ai_response` passes pydantic validation against the
`CodeXRResponse` schema, so no `ValidationError` reaches the caller and the
schema-error branch is unreachable. -/
theorem resolver_output_schema_valid (q : String) (_hq : q ≠ "") :
    validateCodeXR (toDict (get_simulated_ai_response q)) =
      Except.ok (get_simulated_ai_response q) :=
  validate_toDict (get_simulated_ai_response q)

/-- Witness for C1 at the concrete query "How do I bake lighting?". -/
theorem resolver_output_schema_valid_witness :
    validateCodeXR (toDict (get_simulated_ai_response "How do I bake lighting?")) =
      Except.ok (get_simulated_ai_response "How do I bake lighting?") :=
  resolver_output_schema_valid "How do I bake lighting?" (by decide)

/-- C2: a query that satisfies none of the three registered keyword
combinations gets the fallback record: exactly one subtask, difficulty
"N/A", code snippet language "text", and an empty documentation link. -/
theorem fallback_on_no_keyword_match (q : String)
    (h0 : satisfiesRuleIdx 0 q = false)
    (h1 : satisfiesRuleIdx 1 q = false)
    (h2 : satisfiesRuleIdx 2 q = false) :
    get_simulated_ai_response q = defaultResponse q ∧
    (get_simulated_ai_response q).subtasks.length = 1 ∧
    (get_simulated_ai_response q).difficulty = "N/A" ∧
    (get_simulated_ai_response q).code_snippet.language = "text" ∧
    (get_simulated_ai_response q).documentation_link = "" := by
  have hg : get_simulated_ai_response q = defaultResponse q := by
    rw [get_eq_applyRule, matchedRule_eq]
    simp [h0, h1, h2, applyRule]
  refine ⟨hg, ?_, ?_, ?_, ?_⟩ <;> rw [hg] <;> rfl

/-- Witness for C2 at the concrete query "how do I bake lighting". -/
theorem fallback_on_no_keyword_match_witness :
    get_simulated_ai_response "how do I bake lighting" = defaultResponse "how do I bake lighting" ∧
    (get_simulated_ai_response "how do I bake lighting").subtasks.length = 1 ∧
    (get_simulated_ai_response "how do I bake lighting").difficulty = "N/A" ∧
    (get_simulated_ai_response "how do I bake lighting").code_snippet.language = "text" ∧
    (get_simulated_ai_response "how do I bake lighting").documentation_link = "" :=
  fallback_on_no_keyword_match "how do I bake lighting"
    (by decide) (by decide) (by decide)

/-- C3: the demo query "How do I add teleport locomotion in Unity VR?"
resolves to category "Unity", difficulty "Intermediate", exactly 4 subtasks
and code snippet language "csharp". -/
theorem unity_teleport_scenario :
    (get_simulated_ai_response "How do I add teleport locomotion in Unity VR?").category = "Unity" ∧
    (get_simulated_ai_response "How do I add teleport locomotion in Unity VR?").difficulty = "Intermediate" ∧
    (get_simulated_ai_response "How do I add teleport locomotion in Unity VR?").subtasks.length = 4 ∧
    (get_simulated_ai_response "How do I add teleport locomotion in Unity VR?").code_snippet.language = "csharp" := by
  refine ⟨?_, ?_, ?_, ?_⟩ <;> rfl

/-- C4: the resolver is deterministic — two evaluations on the same query
string return identical records (it is a pure function of the query and the
static rule table; the shallow embedding is side-effect free). -/
theorem resolver_deterministic (q1 q2 : String) (h : q1 = q2) :
    get_simulated_ai_response q1 = get_simulated_ai_response q2 := by
  rw [h]

/-- Witness for C4: two evaluations at "teleport unity" agree. -/
theorem resolver_deterministic_witness :
    get_simulated_ai_response "teleport unity" = get_simulated_ai_response "teleport unity" :=
  resolver_deterministic "teleport unity" "teleport unity" rfl

/-- C5: the `query` field of the resolver output always equals the input
string verbatim, although matching uses the lower-cased copy. -/
theorem query_echoed_verbatim (q : String) :
    (get_simulated_ai_response q).query = q := by
  simp only [get_simulated_ai_response]
  split_ifs <;> rfl

/-- C6: matching is case-insensitive: queries with the same lower-casing
select the same rule, and the concrete pair "TELEPORT UNITY" /
"teleport unity" gets identical records apart from the echoed `query`. -/
theorem case_insensitive_matching :
    (∀ q q' : String, strToLower q = strToLower q' → matchedRule q = matchedRule q') ∧
    eraseQuery (get_simulated_ai_response "TELEPORT UNITY") =
      eraseQuery (get_simulated_ai_response "teleport unity") := by
  constructor
  · intro q q' h
    simp only [matchedRule]
    rw [h]
  · rfl

/-- Witness for C6 at the concrete pair "TELEPORT UNITY" / "teleport unity". -/
theorem case_insensitive_matching_witness :
    matchedRule "TELEPORT UNITY" = matchedRule "teleport unity" :=
  case_insensitive_matching.1 "TELEPORT UNITY" "teleport unity" (by decide)

/-- C7: the earliest registered rule whose keyword set the query satisfies
decides the output: if rule `i` is satisfied and every earlier rule is not,
the resolver returns rule `i`'s record (so when two rules are satisfied the
earlier one wins). -/
theorem earliest_satisfied_rule_wins (q : String) (i : Nat) (hi : i < 3)
    (hsat : satisfiesRuleIdx i q = true)
    (hmin : ∀ k, k < i → satisfiesRuleIdx k q = false) :
    get_simulated_ai_response q = ruleResponse i q := by
  rw [get_eq_applyRule, matchedRule_eq]
  interval_cases i
  · simp [hsat, applyRule]
  · have h0 := hmin 0 (by omega)
    simp [h0, hsat, applyRule]
  · have h0 := hmin 0 (by omega)
    have h1 := hmin 1 (by omega)
    simp [h0, h1, hsat, applyRule]

/-- Witness for C7: "multiplayer unreal shader occlusion" satisfies both
rule 1 and rule 2, and resolves to rule 1's record. -/
theorem earliest_satisfied_rule_wins_witness :
    get_simulated_ai_response "multiplayer unreal shader occlusion" =
      ruleResponse 1 "multiplayer unreal shader occlusion" :=
  earliest_satisfied_rule_wins "multiplayer unreal shader occlusion" 1
    (by decide) (by decide) (by decide)

/-- Counterexample to C8: the query "teleport unity multiplayer unreal"
satisfies the keyword sets of rule 0 and of rule 1 at once, so it is not
true that every query satisfies at most one rule. -/
theorem multi_rule_query_counterexample :
    satisfiesRuleIdx 0 "teleport unity multiplayer unreal" = true ∧
    satisfiesRuleIdx 1 "teleport unity multiplayer unreal" = true := by decide

/-- C8 (amended): the three rules share no keyword (pairwise disjoint
keyword sets), and each of the three demo scenario queries satisfies
exactly its own rule; but a query containing the keywords of several rules
satisfies several rules. -/
theorem rule_keywords_disjoint_demo_unambiguous :
    ((ruleKeywords.getD 0 []).all (fun k => !(ruleKeywords.getD 1 []).contains k)
      && (ruleKeywords.getD 0 []).all (fun k => !(ruleKeywords.getD 2 []).contains k)
      && (ruleKeywords.getD 1 []).all (fun k => !(ruleKeywords.getD 2 []).contains k)) = true ∧
    (List.range 3).filter (fun i => satisfiesRuleIdx i "How do I add teleport locomotion in Unity VR?") = [0] ∧
    (List.range 3).filter (fun i => satisfiesRuleIdx i "Show me multiplayer networking in Unreal") = [1] ∧
    (List.range 3).filter (fun i => satisfiesRuleIdx i "shader for AR occlusion") = [2] := by decide

/-- Counterexample to C9: the whitespace-only query " " is not rejected at
the UI boundary — the submit handler resolves it and renders the fallback
record instead of showing the empty-input warning. -/
theorem whitespace_query_resolved_counterexample :
    handleSubmit " " ≠ UIOutcome.warned ∧
    handleSubmit " " = UIOutcome.rendered (defaultResponse " ") := by decide

/-- C9 (amended): empty input is rejected at the boundary with the warning
and no resolution, but any non-empty input — whitespace-only included —
passes the boundary check and is resolved and rendered. -/
theorem empty_rejected_nonempty_resolved :
    handleSubmit "" = UIOutcome.warned ∧
    ∀ q : String, q ≠ "" →
      handleSubmit q = UIOutcome.rendered (get_simulated_ai_response q) := by
  constructor
  · rfl
  · intro q h
    rw [handleSubmit, if_pos h, validate_toDict]

/-- Witness for the amended C9 at the whitespace-only query of three
spaces. -/
theorem empty_rejected_nonempty_resolved_witness :
    handleSubmit "   " = UIOutcome.rendered (get_simulated_ai_response "   ") :=
  empty_rejected_nonempty_resolved.2 "   " (by decide)

/-- C10: every field except `query` depends only on which rule matched: two
queries selecting the same rule (or both the fallback) get records that
agree once the echoed query is blanked out. -/
theorem template_depends_only_on_rule (q1 q2 : String)
    (h : matchedRule q1 = matchedRule q2) :
    eraseQuery (get_simulated_ai_response q1) =
      eraseQuery (get_simulated_ai_response q2) := by
  rw [get_eq_applyRule, get_eq_applyRule, h]
  cases matchedRule q2 with
  | none => rfl
  | some i => rcases i with _ | _ | _ | i <;> rfl

/-- Witness for C10 at two different rule-0 queries. -/
theorem template_depends_only_on_rule_witness :
    eraseQuery (get_simulated_ai_response "please add TELEPORT to my unity scene") =
      eraseQuery (get_simulated_ai_response "unity teleportation basics") :=
  template_depends_only_on_rule "please add TELEPORT to my unity scene"
    "unity teleportation basics" (by decide)

end CodeXR
